import Mathlib

/-!
Verification of the asynchronous result-resolution subsystem and geometry
engine of the AdSnap Studio application (src/app.py,
src/services/image_expansion.py), embedded shallowly in Lean.

Ratios coming from the UI sliders are embedded as rationals; Python's
`int(...)` applied to a nonnegative product is truncation toward zero,
embedded as `pyInt` below.
-/

namespace AdSnap

/-- Python `int(q)` on a rational: truncation toward zero
(floor for nonnegative arguments, ceiling-via-negation for negative ones). -/
def pyInt (q : ℚ) : ℤ :=
  if 0 ≤ q then ⌊q⌋ else -⌊-q⌋

/-- Pixel rectangle produced by the region computation. -/
structure Region where
  x0 : ℤ
  y0 : ℤ
  width : ℤ
  height : ℤ
deriving DecidableEq

/-- Region computation from app.py lines 703-713 (generative fill) and
857-867 (erase), which are textually identical:
`x_start = int(original_width * x_start_ratio)` etc., then
`x_end = min(x_start + mask_width, original_width)` (same for y),
then `mask_width = x_end - x_start`, `mask_height = y_end - y_start`. -/
def computeRegion (W H : ℕ) (xr yr wr hr : ℚ) : Region :=
  let xs := pyInt (W * xr)
  let ys := pyInt (H * yr)
  let mw := pyInt (W * wr)
  let mh := pyInt (H * hr)
  let xe := min (xs + mw) (W : ℤ)
  let ye := min (ys + mh) (H : ℤ)
  { x0 := xs, y0 := ys, width := xe - xs, height := ye - ys }

/-- Canvas placement computed by the Image Expansion tab. -/
structure CanvasPlacement where
  canvasW : ℤ
  canvasH : ℤ
  origW : ℕ
  origH : ℕ
  locX : ℤ
  locY : ℤ
deriving DecidableEq

/-- Expansion placement computation from app.py lines 966-975:
`new_width = int(original_width * (1 + left_expand_ratio + right_expand_ratio))`,
`new_height = int(original_height * (1 + top_expand_ratio + bottom_expand_ratio))`,
`original_x = int(original_width * left_expand_ratio)`,
`original_y = int(original_height * top_expand_ratio)`. -/
def computeExpansionPlacement (w h : ℕ) (l r t b : ℚ) : CanvasPlacement :=
  { canvasW := pyInt (w * (1 + l + r))
    canvasH := pyInt (h * (1 + t + b))
    origW := w
    origH := h
    locX := pyInt (w * l)
    locY := pyInt (h * t) }

lemma pyInt_of_nonneg {q : ℚ} (h : 0 ≤ q) : pyInt q = ⌊q⌋ := by
  simp [pyInt, h]

/-- C1: For an image of dimensions at least 1×1 and ratio inputs in
`[0,1]^4` with positive width/height ratios, the region computation of
app.py (truncate toward zero, clip the end coordinates with `min`,
re-derive width/height from the clipped end) yields a rectangle with
`x_start + mask_width ≤ imageWidth` and `y_start + mask_height ≤ imageHeight`;
and on a 1000×800 image with `x0Ratio = 9/10` and `wRatio = 3/10` the
resulting width is 100, not 300. -/
theorem computeRegion_bounds_and_clip_example :
    (∀ (W H : ℕ) (xr yr wr hr : ℚ),
      1 ≤ W → 1 ≤ H → 0 ≤ xr → xr ≤ 1 → 0 ≤ yr → yr ≤ 1 →
      0 < wr → wr ≤ 1 → 0 < hr → hr ≤ 1 →
      (computeRegion W H xr yr wr hr).x0 + (computeRegion W H xr yr wr hr).width
          ≤ (W : ℤ) ∧
      (computeRegion W H xr yr wr hr).y0 + (computeRegion W H xr yr wr hr).height
          ≤ (H : ℤ)) ∧
    (computeRegion 1000 800 (9/10) 0 (3/10) (1/2)).width = 100 ∧
    (computeRegion 1000 800 (9/10) 0 (3/10) (1/2)).width ≠ 300 := by
  refine ⟨fun W H xr yr wr hr _ _ _ _ _ _ _ _ _ _ => ?_, ?_, ?_⟩
  · constructor <;> · simp only [computeRegion]; omega
  · simp only [computeRegion, pyInt]
    norm_num
  · simp only [computeRegion, pyInt]
    norm_num

/-- Witness for C1: the general bound instantiated at the 1000×800 scenario. -/
theorem computeRegion_bounds_witness :
    (computeRegion 1000 800 (9/10) 0 (3/10) (1/2)).x0
        + (computeRegion 1000 800 (9/10) 0 (3/10) (1/2)).width ≤ (1000 : ℤ) :=
  (computeRegion_bounds_and_clip_example.1 1000 800 (9/10) 0 (3/10) (1/2)
    (by norm_num) (by norm_num) (by norm_num) (by norm_num) (by norm_num)
    (by norm_num) (by norm_num) (by norm_num) (by norm_num) (by norm_num)).1

/-- C6: for any original size of at least 1×1 and nonnegative edge ratios,
the computed canvas placement keeps the original image inside the canvas:
`locX + w ≤ canvasW` and `locY + h ≤ canvasH`. -/
theorem computeExpansionPlacement_bounds
    (w h : ℕ) (l r t b : ℚ)
    (hw : 1 ≤ w) (hh : 1 ≤ h)
    (hl : 0 ≤ l) (hr : 0 ≤ r) (ht : 0 ≤ t) (hb : 0 ≤ b) :
    (computeExpansionPlacement w h l r t b).locX + (w : ℤ)
        ≤ (computeExpansionPlacement w h l r t b).canvasW ∧
    (computeExpansionPlacement w h l r t b).locY + (h : ℤ)
        ≤ (computeExpansionPlacement w h l r t b).canvasH := by
  have hwq : (0 : ℚ) ≤ (w : ℚ) := by positivity
  have hhq : (0 : ℚ) ≤ (h : ℚ) := by positivity
  constructor
  · show pyInt ((w : ℚ) * l) + (w : ℤ) ≤ pyInt ((w : ℚ) * (1 + l + r))
    rw [pyInt_of_nonneg (mul_nonneg hwq hl),
        pyInt_of_nonneg (mul_nonneg hwq (by linarith))]
    have h1 : (⌊(w : ℚ) * l⌋ + (w : ℤ)) = ⌊(w : ℚ) * l + (w : ℕ)⌋ := by
      rw [Int.floor_add_nat]
    rw [h1]
    apply Int.floor_le_floor
    have : (0 : ℚ) ≤ (w : ℚ) * r := mul_nonneg hwq hr
    nlinarith
  · show pyInt ((h : ℚ) * t) + (h : ℤ) ≤ pyInt ((h : ℚ) * (1 + t + b))
    rw [pyInt_of_nonneg (mul_nonneg hhq ht),
        pyInt_of_nonneg (mul_nonneg hhq (by linarith))]
    have h1 : (⌊(h : ℚ) * t⌋ + (h : ℤ)) = ⌊(h : ℚ) * t + (h : ℕ)⌋ := by
      rw [Int.floor_add_nat]
    rw [h1]
    apply Int.floor_le_floor
    have : (0 : ℚ) ≤ (h : ℚ) * b := mul_nonneg hhq hb
    nlinarith

/-- Witness for C6: the spec scenario, edge ratios `left = right = 1/2`,
`top = bottom = 0` on an 800×600 image. -/
theorem computeExpansionPlacement_bounds_witness :
    (computeExpansionPlacement 800 600 (1/2) (1/2) 0 0).locX + (800 : ℤ)
        ≤ (computeExpansionPlacement 800 600 (1/2) (1/2) 0 0).canvasW ∧
    (computeExpansionPlacement 800 600 (1/2) (1/2) 0 0).locY + (600 : ℤ)
        ≤ (computeExpansionPlacement 800 600 (1/2) (1/2) 0 0).canvasH :=
  computeExpansionPlacement_bounds 800 600 (1/2) (1/2) 0 0
    (by norm_num) (by norm_num) (by norm_num) (by norm_num) (by norm_num)
    (by norm_num)

/-- JSON-like values as handled by the response-parsing code: strings,
lists, dictionaries (association lists with unique keys, as in a Python
dict), and anything else (`other`). -/
inductive J where
  | s (v : String)
  | l (xs : List J)
  | d (kvs : List (String × J))
  | other

/-- Python indexing `v[0]`: defined on lists (element) and strings
(one-character string); anything else raises, modelled as `none`. -/
def J.index : J → Nat → Option J
  | J.l xs, n => xs.get? n
  | J.s v, n => (v.toList.get? n).map (fun c => J.s (String.mk [c]))
  | _, _ => none

/-- Iterating over a Python string yields its one-character strings. -/
def pyStrChars (v : String) : List J :=
  v.toList.map (fun c => J.s (String.mk [c]))

/-- Observable outcome of the generate-image response parsing block:
`success img` (edited_image set to `img`, success message shown),
`silent` (the block falls through with no message and no state change),
`errorMsg` (the `st.error("No valid result format found ...")` branch), and
`pyError` (a Python exception, caught by the surrounding `except`). -/
inductive ParseOutcome where
  | success (image : J)
  | silent
  | errorMsg
  | pyError

/-- Loop over `result["result"]` from app.py lines 254-262: the first item
that is a dict with an `"urls"` key yields `item["urls"][0]` and breaks;
the first item that is a nonempty list yields `item[0]` and breaks; other
items are skipped; if no item matches, the loop falls through silently. -/
def parseResultItems : List J → ParseOutcome
  | [] => ParseOutcome.silent
  | item :: rest =>
    match item with
    | J.d ikvs =>
      match List.lookup "urls" ikvs with
      | some u =>
        match J.index u 0 with
        | some v => ParseOutcome.success v
        | none => ParseOutcome.pyError
      | none => parseResultItems rest
    | J.l (x :: _) => ParseOutcome.success x
    | J.l [] => parseResultItems rest
    | _ => parseResultItems rest

/-- Generate-image response parsing, app.py lines 246-264:
`if isinstance(result, dict):` then the ordered chain
`if "result_url" in result: ... elif "result_urls" in result:
edited_image = result["result_urls"][0] ... elif "result" in result and
isinstance(result["result"], list): <item loop>`; the
`st.error("No valid result format found in the API response.")` branch is
attached to the `else` of `isinstance(result, dict)` only. -/
def parseGenerateResult (result : J) : ParseOutcome :=
  match result with
  | J.d kvs =>
    match List.lookup "result_url" kvs with
    | some v => ParseOutcome.success v
    | none =>
      match List.lookup "result_urls" kvs with
      | some v =>
        match J.index v 0 with
        | some u => ParseOutcome.success u
        | none => ParseOutcome.pyError
      | none =>
        match List.lookup "result" kvs with
        | some (J.l items) => parseResultItems items
        | some _ => ParseOutcome.silent
        | none => ParseOutcome.silent
  | _ => ParseOutcome.errorMsg

/-- URL-accumulation loop of the async branch, app.py lines 522-530:
`for item in result["result"]:` extend `urls` with `item["urls"]` when the
item is a dict carrying `"urls"`, with the item itself when it is a list,
skip otherwise; after each item, `if len(urls) >= num_results: break`.
Extending with a non-iterable raises in Python, modelled as `none`. -/
def collectLoop : List J → List J → Nat → Option (List J)
  | [], acc, _ => some acc
  | item :: rest, acc, n =>
    let step : Option (List J) :=
      match item with
      | J.d ikvs =>
        match List.lookup "urls" ikvs with
        | some (J.l us) => some (acc ++ us)
        | some (J.s v) => some (acc ++ pyStrChars v)
        | some _ => none
        | none => some acc
      | J.l xs => some (acc ++ xs)
      | _ => some acc
    match step with
    | none => none
    | some acc2 => if n ≤ acc2.length then some acc2 else collectLoop rest acc2 n

/-- Async URL accumulation, app.py lines 517-533: `urls = []`, then for a
dict response, `if "urls" in result: urls.extend(result["urls"][:num_results])
elif "result" in result and isinstance(result["result"], list): <loop>`
followed by `urls = urls[:num_results]` inside that elif branch. A Python
exception (slicing/iterating a non-sequence) is modelled as `none`. -/
def normalizeAsync (result : J) (n : ℕ) : Option (List J) :=
  match result with
  | J.d kvs =>
    match List.lookup "urls" kvs with
    | some (J.l us) => some (us.take n)
    | some (J.s v) => some ((pyStrChars v).take n)
    | some _ => none
    | none =>
      match List.lookup "result" kvs with
      | some (J.l items) => (collectLoop items [] n).map (fun us => us.take n)
      | some _ => some []
      | none => some []
  | _ => some []

/-- C3: whenever the async accumulation returns normally it returns at most
`n` references, and in API-reported order: a flat list of 5 references with
`n = 3` yields exactly the first 3; a nested list whose first item carries
2 references and whose second carries 3, with `n = 4`, yields the first
item's 2 references followed by the first 2 of the second item's (the loop
breaks mid-item once the accumulated count reaches `n`, then trims). -/
theorem normalizeAsync_cap_and_examples :
    (∀ (r : J) (n : ℕ) (us : List J),
        normalizeAsync r n = some us → us.length ≤ n) ∧
    normalizeAsync
        (J.d [("urls", J.l [J.s "u1", J.s "u2", J.s "u3", J.s "u4", J.s "u5"])])
        3 = some [J.s "u1", J.s "u2", J.s "u3"] ∧
    normalizeAsync
        (J.d [("result", J.l
          [J.d [("urls", J.l [J.s "a1", J.s "a2"])],
           J.d [("urls", J.l [J.s "b1", J.s "b2", J.s "b3"])]])])
        4 = some [J.s "a1", J.s "a2", J.s "b1", J.s "b2"] := by
  refine ⟨?_, rfl, rfl⟩
  intro r n us h
  unfold normalizeAsync at h
  repeat' split at h
  all_goals
    first
      | (injection h with h; subst h;
         simp [List.length_take])
      | (rcases Option.map_eq_some'.mp h with ⟨x, hx, h2⟩; subst h2;
         simp [List.length_take])
      | simp at h

/-- Witness for C3: the cap applied to the concrete flat-list response. -/
theorem normalizeAsync_cap_witness :
    (([J.s "u1", J.s "u2", J.s "u3"] : List J)).length ≤ 3 :=
  normalizeAsync_cap_and_examples.1
    (J.d [("urls", J.l [J.s "u1", J.s "u2", J.s "u3", J.s "u4", J.s "u5"])])
    3 [J.s "u1", J.s "u2", J.s "u3"] rfl

/-- C4 (code bug): a dictionary response carrying none of the recognized
fields (`result_url`, `result_urls`, `result`) makes the generate-image
parsing fall through silently: no error is reported and no result is
produced, although the intended behavior (and the code's own error message
text, attached only to the non-dict `else`) is to report that no valid
result format was found. -/
theorem parseGenerateResult_unrecognized_dict_is_silent :
    parseGenerateResult (J.d [("status", J.s "ok")]) = ParseOutcome.silent ∧
    parseGenerateResult J.other = ParseOutcome.errorMsg := by
  exact ⟨rfl, rfl⟩

/-- C8: shape resolution in the generate-image parsing is an ordered
fallback: a present `result_url` field alone determines the outcome, even
when `result_urls` or `result` are also present; with `result_url` absent,
a present `result_urls` field wins over `result`. -/
theorem parseGenerateResult_ordered_fallback (kvs : List (String × J)) :
    (∀ u, List.lookup "result_url" kvs = some u →
        parseGenerateResult (J.d kvs) = ParseOutcome.success u) ∧
    (∀ v u, List.lookup "result_url" kvs = none →
        List.lookup "result_urls" kvs = some v → J.index v 0 = some u →
        parseGenerateResult (J.d kvs) = ParseOutcome.success u) := by
  constructor
  · intro u hu
    simp [parseGenerateResult, hu]
  · intro v u h0 hv hi
    simp [parseGenerateResult, h0, hv, hi]

/-- Witness for C8: with all three shape fields simultaneously present the
singular `result_url` field alone decides the outcome. -/
theorem parseGenerateResult_ordered_fallback_witness :
    parseGenerateResult
      (J.d [("result_url", J.s "a"),
            ("result_urls", J.l [J.s "b"]),
            ("result", J.l [J.l [J.s "c"]])]) = ParseOutcome.success (J.s "a") :=
  (parseGenerateResult_ordered_fallback
      [("result_url", J.s "a"),
       ("result_urls", J.l [J.s "b"]),
       ("result", J.l [J.l [J.s "c"]])]).1 (J.s "a") rfl

/-- Result of one readiness probe `requests.head(url)`: either a status
code, or a raised exception. -/
inductive ProbeResult where
  | ok (status : ℕ)
  | exn
deriving DecidableEq

/-- Readiness test of app.py lines 106-114: a job is ready exactly when the
probe returns status 200; any other status, and any exception, count as not
ready. -/
def isReady (res : ProbeResult) : Bool :=
  match res with
  | ProbeResult.ok status => status == 200
  | ProbeResult.exn => false

/-- Session state touched by the polling functions: `pending_urls`,
`edited_image`, `generated_images`. -/
structure PollState where
  pendingUrls : List String
  editedImage : Option String
  generatedImages : List String
deriving DecidableEq

/-- Single pass of the loop in app.py lines 105-114: every pending URL is
probed once and appended, in submission order, to `ready_images` when the
probe returns 200 and to `still_pending` otherwise (non-200 status or
exception). -/
def pollPass (probe : String → ProbeResult) : List String → List String × List String
  | [] => ([], [])
  | u :: rest =>
    let res := pollPass probe rest
    if isReady (probe u) then (u :: res.1, res.2) else (res.1, u :: res.2)

/-- check_generated_images, app.py lines 99-126: does nothing when
`pending_urls` is empty (falsy); otherwise partitions the pending URLs,
stores `still_pending` back into `pending_urls`, and if any URL is ready
promotes the first ready URL to `edited_image` (storing the whole ready
list in `generated_images` when there is more than one) and returns True;
returns False otherwise. -/
def checkGeneratedImages (probe : String → ProbeResult) (s : PollState) :
    Bool × PollState :=
  if s.pendingUrls.isEmpty then (false, s)
  else
    let res := pollPass probe s.pendingUrls
    let s1 : PollState := { s with pendingUrls := res.2 }
    match res.1 with
    | [] => (false, s1)
    | r0 :: rest =>
      (true,
        { s1 with
            editedImage := some r0
            generatedImages :=
              if (r0 :: rest).length > 1 then r0 :: rest else s1.generatedImages })

/-- auto_check_images, app.py lines 128-138:
`while attempt < max_attempts and st.session_state.pending_urls:` sleep,
run check_generated_images, return True on success, else increment
`attempt`. The third component counts how many times
check_generated_images was invoked (the source keeps this count in
`attempt`; it is made explicit here to state the attempt-budget claim). -/
def autoCheckLoop (probe : String → ProbeResult) :
    ℕ → PollState → Bool × PollState × ℕ
  | 0, s => (false, s, 0)
  | Nat.succ fuel, s =>
    if s.pendingUrls.isEmpty then (false, s, 0)
    else
      let r1 := checkGeneratedImages probe s
      if r1.1 then (true, r1.2, 1)
      else
        let r2 := autoCheckLoop probe fuel r1.2
        (r2.1, r2.2.1, r2.2.2 + 1)

/-- auto_check_images with its hard-coded `max_attempts = 3`. -/
def autoCheckImages (probe : String → ProbeResult) (s : PollState) :
    Bool × PollState × ℕ :=
  autoCheckLoop probe 3 s

lemma pollPass_fst (probe : String → ProbeResult) (urls : List String) :
    (pollPass probe urls).1 = urls.filter (fun u => isReady (probe u)) := by
  induction urls with
  | nil => rfl
  | cons u rest ih =>
    simp only [pollPass, List.filter_cons]
    cases h : isReady (probe u) <;> simp [h, ih]

lemma pollPass_snd (probe : String → ProbeResult) (urls : List String) :
    (pollPass probe urls).2 = urls.filter (fun u => !isReady (probe u)) := by
  induction urls with
  | nil => rfl
  | cons u rest ih =>
    simp only [pollPass, List.filter_cons]
    cases h : isReady (probe u) <;> simp [h, ih]

lemma checkGeneratedImages_all_fail (probe : String → ProbeResult)
    (s : PollState)
    (hfail : ∀ u ∈ s.pendingUrls, isReady (probe u) = false) :
    checkGeneratedImages probe s = (false, s) := by
  unfold checkGeneratedImages
  by_cases hemp : s.pendingUrls.isEmpty
  · simp [hemp]
  · have h1 : (pollPass probe s.pendingUrls).1 = [] := by
      rw [pollPass_fst]
      exact List.filter_eq_nil_iff.mpr (fun u hu => by simp [hfail u hu])
    have h2 : (pollPass probe s.pendingUrls).2 = s.pendingUrls := by
      rw [pollPass_snd]
      exact List.filter_eq_self.mpr (fun u hu => by simp [hfail u hu])
    simp [hemp, h1, h2]

/-- C7: within a single poll pass, a probe exception and a non-200 probe
status are treated identically to "not yet ready": such a URL stays in the
pending list (and is absent from the ready list) while the remaining URLs
are still processed, and a URL enters the ready list exactly when its
probe returns status 200. No error is surfaced: the pass always returns
normally with the partition. -/
theorem pollPass_absorbs_probe_failures (probe : String → ProbeResult)
    (urls : List String) (u : String) (hu : u ∈ urls) :
    (probe u = ProbeResult.exn →
      u ∈ (pollPass probe urls).2 ∧ u ∉ (pollPass probe urls).1) ∧
    (∀ c, probe u = ProbeResult.ok c → c ≠ 200 →
      u ∈ (pollPass probe urls).2 ∧ u ∉ (pollPass probe urls).1) ∧
    (u ∈ (pollPass probe urls).1 ↔ probe u = ProbeResult.ok 200) := by
  rw [pollPass_fst, pollPass_snd]
  refine ⟨?_, ?_, ?_⟩
  · intro hexn
    constructor
    · exact List.mem_filter.mpr ⟨hu, by simp [isReady, hexn]⟩
    · intro hmem
      have := (List.mem_filter.mp hmem).2
      simp [isReady, hexn] at this
  · intro c hc hne
    constructor
    · exact List.mem_filter.mpr ⟨hu, by simp [isReady, hc, hne]⟩
    · intro hmem
      have := (List.mem_filter.mp hmem).2
      simp [isReady, hc] at this
      exact hne this
  · constructor
    · intro hmem
      have := (List.mem_filter.mp hmem).2
      cases hp : probe u with
      | ok c =>
        simp [isReady, hp] at this
        simp [hp, this]
      | exn => simp [isReady, hp] at this
    · intro hp
      exact List.mem_filter.mpr ⟨hu, by simp [isReady, hp]⟩

/-- Witness for C7: a two-job set where the first probe raises and the
second returns 404; both stay pending. -/
theorem pollPass_absorbs_probe_failures_witness :
    ("a" ∈ (pollPass
        (fun u => if u = "a" then ProbeResult.exn else ProbeResult.ok 404)
        ["a", "b"]).2 ∧
      "a" ∉ (pollPass
        (fun u => if u = "a" then ProbeResult.exn else ProbeResult.ok 404)
        ["a", "b"]).1) :=
  (pollPass_absorbs_probe_failures
    (fun u => if u = "a" then ProbeResult.exn else ProbeResult.ok 404)
    ["a", "b"] "a" (by simp)).1 (by simp)

/-- C10: a single poll pass partitions the prior pending list exactly: the
ready list is the order-preserving sublist of URLs whose probe returned
200 and the new pending list is the order-preserving sublist of the rest
(so no URL is dropped, duplicated, or invented); the stored pending set
after the pass equals exactly the still-pending URLs; and when at least
one URL is ready, the first-submitted ready URL is the one promoted to
`edited_image`, with the function reporting success. -/
theorem checkGeneratedImages_partition (probe : String → ProbeResult)
    (s : PollState) :
    (pollPass probe s.pendingUrls).1
        = s.pendingUrls.filter (fun u => isReady (probe u)) ∧
    (pollPass probe s.pendingUrls).2
        = s.pendingUrls.filter (fun u => !isReady (probe u)) ∧
    (checkGeneratedImages probe s).2.pendingUrls
        = (pollPass probe s.pendingUrls).2 ∧
    (∀ r0 rest, (pollPass probe s.pendingUrls).1 = r0 :: rest →
      (checkGeneratedImages probe s).2.editedImage = some r0 ∧
      (checkGeneratedImages probe s).1 = true) := by
  refine ⟨pollPass_fst probe s.pendingUrls, pollPass_snd probe s.pendingUrls,
    ?_, ?_⟩
  · unfold checkGeneratedImages
    by_cases hemp : s.pendingUrls.isEmpty
    · have : s.pendingUrls = [] := List.isEmpty_iff.mp hemp
      simp [hemp, this, pollPass]
    · simp only [hemp, if_false]
      cases hres : (pollPass probe s.pendingUrls).1 <;> simp [hres]
  · intro r0 rest hres
    have hne : ¬s.pendingUrls.isEmpty := by
      intro hemp
      have : s.pendingUrls = [] := List.isEmpty_iff.mp hemp
      rw [this] at hres
      simp [pollPass] at hres
    unfold checkGeneratedImages
    simp [hne, hres]

/-- Witness for C10: a three-job set where the first and third probes
return 200; the first-submitted ready URL `"a"` is promoted. -/
theorem checkGeneratedImages_partition_witness :
    (checkGeneratedImages
        (fun u => if u = "b" then ProbeResult.ok 404 else ProbeResult.ok 200)
        ⟨["a", "b", "c"], none, []⟩).2.editedImage = some "a" :=
  ((checkGeneratedImages_partition
      (fun u => if u = "b" then ProbeResult.ok 404 else ProbeResult.ok 200)
      ⟨["a", "b", "c"], none, []⟩).2.2.2 "a" ["c"] (by simp [pollPass, isReady])).1

/-- C2 counterexample: on the empty job set (on which every probe
vacuously fails) auto_check_images performs 0 polling attempts, not 3: the
`while` condition `attempt < max_attempts and st.session_state.pending_urls`
is falsy immediately. -/
theorem autoCheckImages_empty_set_zero_attempts :
    autoCheckImages (fun _ => ProbeResult.exn) ⟨[], none, []⟩
        = (false, ⟨[], none, []⟩, 0) ∧ (0 : ℕ) ≠ 3 := by
  exact ⟨rfl, by norm_num⟩

/-- C2 (amended to nonempty job sets): when the pending set is nonempty and
every probe of a pending URL always fails (raises or returns non-200),
auto_check_images performs exactly 3 polling attempts — never a 4th —
reports no ready image (False), and leaves the session state intact: the
pending set is retained unchanged for later manual re-checking and no
`edited_image` is promoted. -/
theorem autoCheckImages_budget_all_fail (probe : String → ProbeResult)
    (s : PollState)
    (hne : s.pendingUrls ≠ [])
    (hfail : ∀ u ∈ s.pendingUrls, isReady (probe u) = false) :
    autoCheckImages probe s = (false, s, 3) := by
  have hchk : checkGeneratedImages probe s = (false, s) :=
    checkGeneratedImages_all_fail probe s hfail
  have hemp : s.pendingUrls.isEmpty = false := by
    cases h : s.pendingUrls.isEmpty
    · rfl
    · exact absurd (List.isEmpty_iff.mp h) hne
  show autoCheckLoop probe 3 s = (false, s, 3)
  simp only [autoCheckLoop, hemp, hchk, Bool.false_eq_true, if_false]

/-- Witness for C2: two pending URLs, one probe always raising and the
other always returning 503. -/
theorem autoCheckImages_budget_all_fail_witness :
    autoCheckImages
        (fun u => if u = "a" then ProbeResult.exn else ProbeResult.ok 503)
        ⟨["a", "b"], none, []⟩
      = (false, ⟨["a", "b"], none, []⟩, 3) :=
  autoCheckImages_budget_all_fail
    (fun u => if u = "a" then ProbeResult.exn else ProbeResult.ok 503)
    ⟨["a", "b"], none, []⟩ (by simp)
    (by
      intro u hu
      simp only [List.mem_cons, List.mem_singleton] at hu
      rcases hu with rfl | rfl | h
      · simp [isReady]
      · simp [isReady]
      · simp at h)

/-- Observable pre-dispatch outcome of the expansion pipeline: either the
`ValueError("Image data is required ...")` raised by expand_image for
empty image data, or the request is dispatched with the given payload
(canvas size, original image size, original image location). -/
inductive ExpandOutcome where
  | valueError
  | sends (canvasSize : ℤ × ℤ) (originalImageSize : ℕ × ℕ)
      (originalImageLocation : ℤ × ℤ)
deriving DecidableEq

/-- Expansion path: the placement computation of app.py lines 966-975
followed by the call into expand_image
(src/services/image_expansion.py lines 7-55), whose only check before the
HTTPS POST is `if not image_data: raise ValueError(...)`; no edge-ratio
validation exists anywhere on this path. `imageDataNonempty` abstracts
whether the uploaded image bytes are nonempty. -/
def expandImagePipeline (w h : ℕ) (l r t b : ℚ)
    (imageDataNonempty : Bool) : ExpandOutcome :=
  let newW := pyInt (w * (1 + l + r))
  let newH := pyInt (h * (1 + t + b))
  let ox := pyInt (w * l)
  let oy := pyInt (h * t)
  if imageDataNonempty then
    ExpandOutcome.sends (newW, newH) (w, h) (ox, oy)
  else
    ExpandOutcome.valueError

/-- C5 counterexample: with `left = -1/2` (negative) on a 100×100 image and
nonempty image data, no InvalidParameter error occurs — the placement is
computed from the negative ratio as-is (canvas width 50, original location
x = -50) and the request is dispatched to the remote service. -/
theorem expandImagePipeline_negative_ratio_dispatches :
    expandImagePipeline 100 100 (-1/2) 0 0 0 true
      = ExpandOutcome.sends (50, 100) (100, 100) (-50, 0) := by
  simp only [expandImagePipeline, pyInt]
  norm_num

/-- C5 (amended): there is no edge-ratio validation on the expansion path:
for every input with at least one negative edge ratio, as long as the
image data is nonempty the request is still dispatched (the only
pre-dispatch failure, a ValueError, concerns empty image data only; the UI
sliders' lower bound of 0.0 is what keeps negative ratios out in
practice). -/
theorem expandImagePipeline_no_ratio_validation (w h : ℕ) (l r t b : ℚ)
    (_hneg : l < 0 ∨ r < 0 ∨ t < 0 ∨ b < 0) :
    ∃ cs os loc, expandImagePipeline w h l r t b true
        = ExpandOutcome.sends cs os loc := by
  exact ⟨_, _, _, rfl⟩

/-- Witness for C5 (amended): the negative-ratio input above. -/
theorem expandImagePipeline_no_ratio_validation_witness :
    ∃ cs os loc, expandImagePipeline 100 100 (-1/2) 0 0 0 true
        = ExpandOutcome.sends cs os loc :=
  expandImagePipeline_no_ratio_validation 100 100 (-1/2) 0 0 0
    (Or.inl (by norm_num))

/-- Placement types of the Lifestyle Shot tab, lowercased with underscores
as sent to the API (app.py line 474 / 576). -/
inductive PlacementType where
  | original
  | automatic
  | manual_placement
  | manual_padding
  | custom_coordinates
deriving DecidableEq

/-- Arguments assembled for lifestyle_shot_by_text (app.py lines 470-489)
and lifestyle_shot_by_image (lines 572-590); the two call sites build the
padding, foreground and shot-size arguments identically. `Option` is
`None`-ability of the argument: the code passes `None` (`none`) for the
foreground group outside custom_coordinates, but always passes a concrete
list (`some ...`) for padding_values. -/
structure LifestyleShotArgs where
  placementType : PlacementType
  paddingValues : Option (List ℕ)
  foregroundImageSize : Option (List ℕ)
  foregroundImageLocation : Option (List ℤ)
  shotSize : List ℕ
deriving DecidableEq

/-- Argument assembly shared by both lifestyle-shot call sites:
`padding_values=[pad_left, pad_right, pad_top, pad_bottom] if
placement_type == "Manual Padding" else [0, 0, 0, 0]`,
`foreground_image_size=[fg_width, fg_height] if placement_type ==
"Custom Coordinates" else None` (same for location), and
`shot_size=[shot_width, shot_height] if placement_type != "Original"
else [1000, 1000]`. -/
def assembleLifestyleArgs (pt : PlacementType)
    (padL padR padT padB fgW fgH : ℕ) (fgX fgY : ℤ)
    (shotW shotH : ℕ) : LifestyleShotArgs :=
  { placementType := pt
    paddingValues :=
      some (if pt = PlacementType.manual_padding
        then [padL, padR, padT, padB] else [0, 0, 0, 0])
    foregroundImageSize :=
      if pt = PlacementType.custom_coordinates then some [fgW, fgH] else none
    foregroundImageLocation :=
      if pt = PlacementType.custom_coordinates then some [fgX, fgY] else none
    shotSize :=
      if pt ≠ PlacementType.original then [shotW, shotH] else [1000, 1000] }

/-- C9 counterexample: for placement type `original` (not manual_padding)
the padding group is transmitted with the substitute value `[0, 0, 0, 0]`,
not nulled out. -/
theorem assembleLifestyleArgs_padding_not_nulled :
    (assembleLifestyleArgs PlacementType.original 5 6 7 8 0 0 0 0 100 100).paddingValues
        = some [0, 0, 0, 0] ∧
    (assembleLifestyleArgs PlacementType.original 5 6 7 8 0 0 0 0 100 100).paddingValues
        ≠ none := by
  exact ⟨rfl, by simp [assembleLifestyleArgs]⟩

/-- C9 (amended): when the placement type is not manual_padding the padding
group is transmitted with the fixed substitute `[0, 0, 0, 0]` rather than
nulled out; the Custom Coordinates group (foreground image size and
location) is nulled out (`None`) whenever the placement type is not
custom_coordinates and is sent exactly when it is. -/
theorem assembleLifestyleArgs_groups (pt : PlacementType)
    (padL padR padT padB fgW fgH : ℕ) (fgX fgY : ℤ) (shotW shotH : ℕ) :
    (pt ≠ PlacementType.manual_padding →
      (assembleLifestyleArgs pt padL padR padT padB fgW fgH fgX fgY
        shotW shotH).paddingValues = some [0, 0, 0, 0]) ∧
    (pt ≠ PlacementType.custom_coordinates →
      (assembleLifestyleArgs pt padL padR padT padB fgW fgH fgX fgY
        shotW shotH).foregroundImageSize = none ∧
      (assembleLifestyleArgs pt padL padR padT padB fgW fgH fgX fgY
        shotW shotH).foregroundImageLocation = none) ∧
    (pt = PlacementType.custom_coordinates →
      (assembleLifestyleArgs pt padL padR padT padB fgW fgH fgX fgY
        shotW shotH).foregroundImageSize = some [fgW, fgH] ∧
      (assembleLifestyleArgs pt padL padR padT padB fgW fgH fgX fgY
        shotW shotH).foregroundImageLocation = some [fgX, fgY]) := by
  refine ⟨fun h => ?_, fun h => ?_, fun h => ?_⟩
  · simp [assembleLifestyleArgs, h]
  · simp [assembleLifestyleArgs, h]
  · simp [assembleLifestyleArgs, h]

/-- Witness for C9 (amended): placement `automatic` nulls the foreground
group and substitutes zero padding. -/
theorem assembleLifestyleArgs_groups_witness :
    (assembleLifestyleArgs PlacementType.automatic 1 2 3 4 500 500 0 0
        1000 1000).paddingValues = some [0, 0, 0, 0] :=
  (assembleLifestyleArgs_groups PlacementType.automatic 1 2 3 4 500 500 0 0
      1000 1000).1 (by simp)

end AdSnap
